import Mathlib

/-
Shallow embedding of the traffic-simulation core of better-bridgeway-builder
(the street module concatenated into src/src/index.ts).  Machine numbers are
JavaScript doubles in the source; every quantity manipulated by the street code
is an exact small rational, so the embedding uses Q throughout.  Date.now()
timestamps are modelled as integers (milliseconds) passed explicitly.  The
HTMLImageElement fields are render-only and omitted.  Methods that in the
source filter the receiver out of a list via reference equality take instead a
list from which the receiver has already been removed; the one place where the
receiver reaches such a list unfiltered (the return preview inside
calculateYForPassing) is commented at its definition.
-/

namespace Bridgeway

/-- Lane travel direction; in the source enum LEFT = -1 and RIGHT = 1. -/
inductive LaneDirection where
  | LEFT
  | RIGHT
deriving DecidableEq

/-- Numeric value of the LaneDirection enum (LEFT = -1, RIGHT = 1). -/
def dirValue : LaneDirection → ℚ
  | .LEFT => -1
  | .RIGHT => 1

/-- ObstacleAvoidanceType of the street module. -/
inductive ObstacleAvoidanceType where
  | NONE
  | BRAKE
  | PASS
deriving DecidableEq

/-- JavaScript Math.abs on exact rationals. -/
def qabs (q : ℚ) : ℚ := if q < 0 then -q else q

/-- JavaScript Math.max on exact rationals. -/
def qmax (a b : ℚ) : ℚ := if a < b then b else a

/-- Axis-aligned bounding box data shared by every game object. -/
structure Rect where
  x : ℚ
  y : ℚ
  width : ℚ
  height : ℚ
deriving DecidableEq

/-- Modelled from the spec: GameObject.intersects of the missing game.ts
module.  AABB overlap test where a zero gap on either axis already counts as
no overlap (spec section 3: overlap iff neither rectangle is entirely
left-of, right-of, above or below the other, box edges exclusive). -/
def Rect.intersects (a b : Rect) : Bool :=
  decide (a.x < b.x + b.width) && decide (b.x < a.x + a.width) &&
  decide (a.y < b.y + b.height) && decide (b.y < a.y + a.height)

/-- Modelled from the spec: the player entity of the missing player.ts module.
The street code only consults its bounding-box geometry. -/
structure Player where
  x : ℚ
  y : ℚ
  width : ℚ
  height : ℚ
deriving DecidableEq

def Player.toRect (p : Player) : Rect := ⟨p.x, p.y, p.width, p.height⟩

/-- Obstacle of the street module.  Constructor fields are kept in source
order; the optional HTMLImageElement is render-only and omitted. -/
@[ext] structure Obstacle where
  x : ℚ
  y : ℚ
  width : ℚ
  height : ℚ
  speed : ℚ
  direction : LaneDirection
  avoidance : ObstacleAvoidanceType
  detectCollisions : Bool
  emergencyVehicle : Bool
  originalSpeed : ℚ
  originalY : ℚ
deriving DecidableEq

def Obstacle.toRect (o : Obstacle) : Rect := ⟨o.x, o.y, o.width, o.height⟩

/-- Obstacle.clone(x, y): a copy of the template at the given position with
every behavioural field (including the two origin fields) carried over. -/
def Obstacle.clone (o : Obstacle) (x y : ℚ) : Obstacle := { o with x := x, y := y }

/-- CrosswalkSign state.  The two image fields and the derived visual
flip/angle are render-only and omitted; the crosswalk field is the monitored
zone object. -/
structure CrosswalkSign where
  x : ℚ
  y : ℚ
  direction : LaneDirection
  crosswalk : Rect
  flashing : Bool
  flashingSequence : Bool
  timestampOfPreviousFlash : ℤ
deriving DecidableEq

def signImageScale : ℚ := 1 / 10
def signImageWidth : ℚ := 389 * signImageScale
def signImageHeight : ℚ := 342 * signImageScale

/-- A game object as the street code sees one: an obstacle, the player, a
plain scene rectangle, or the crosswalk sign.  The instanceof checks of the
source dispatch on these alternatives. -/
inductive GObj where
  | obs (o : Obstacle)
  | ply (p : Player)
  | zone (r : Rect)
  | sign (s : CrosswalkSign)
deriving DecidableEq

def GObj.x : GObj → ℚ
  | .obs o => o.x
  | .ply p => p.x
  | .zone r => r.x
  | .sign s => s.x

def GObj.y : GObj → ℚ
  | .obs o => o.y
  | .ply p => p.y
  | .zone r => r.y
  | .sign s => s.y

def GObj.toRect : GObj → Rect
  | .obs o => o.toRect
  | .ply p => p.toRect
  | .zone r => r
  | .sign s => ⟨s.x, s.y, signImageWidth, signImageHeight⟩

/-- The relative-speed reading of calculateTimeToCollision:
closestObstacle instanceof Obstacle ? closestObstacle.speed : 0. -/
def GObj.speedOf : GObj → ℚ
  | .obs o => o.speed
  | _ => 0

def GObj.asPlayer : GObj → Option Player
  | .ply p => some p
  | _ => none

def GObj.asSign : GObj → Option CrosswalkSign
  | .sign s => some s
  | _ => none

/-- objects.find(object => object instanceof Player). -/
def findPlayer (objects : List GObj) : Option Player := objects.findSome? GObj.asPlayer

/-- objects.find(object => object instanceof CrosswalkSign). -/
def findSign (objects : List GObj) : Option CrosswalkSign := objects.findSome? GObj.asSign

/-- The in-lane and in-front filter of Obstacle.getClosestObject applied to a
candidate at coordinates (gx, gy): vertical position within one obstacle
height of this obstacle and strictly ahead in its direction of travel. -/
def Obstacle.aheadInLane (self : Obstacle) (gx gy : ℚ) : Bool :=
  decide ((self.y - self.height ≤ gy ∧ gy ≤ self.y + self.height) ∧
    ((self.direction = LaneDirection.RIGHT ∧ self.x < gx) ∨
     (self.direction = LaneDirection.LEFT ∧ gx < self.x)))

/-- One forEach step of Obstacle.getClosestObject: the accumulator carries the
closest qualifying object so far together with its distance (closestDistance
starts at Infinity, modelled by the none accumulator). -/
def closestStep (self : Obstacle) (acc : Option (GObj × ℚ)) (g : GObj) :
    Option (GObj × ℚ) :=
  if self.aheadInLane g.x g.y then
    let distance := qabs (self.x - g.x)
    match acc with
    | none => some (g, distance)
    | some pr => if distance < pr.2 then some (g, distance) else acc
  else acc

def closestFold (self : Obstacle) (objs : List GObj) : Option (GObj × ℚ) :=
  objs.foldl (closestStep self) none

/-- Obstacle.getClosestObject over a mixed list of game objects. -/
def Obstacle.getClosestObject (self : Obstacle) (objs : List GObj) : Option GObj :=
  (closestFold self objs).map Prod.fst

/-- The same forEach step specialised to plain obstacle lists, as used by
calculateYForPassing (which passes only obstacles). -/
def closestStepObs (self : Obstacle) (acc : Option (Obstacle × ℚ)) (b : Obstacle) :
    Option (Obstacle × ℚ) :=
  if self.aheadInLane b.x b.y then
    let distance := qabs (self.x - b.x)
    match acc with
    | none => some (b, distance)
    | some pr => if distance < pr.2 then some (b, distance) else acc
  else acc

/-- Obstacle.getClosestObject restricted to obstacle lists. -/
def Obstacle.getClosestObstacle (self : Obstacle) (obstacles : List Obstacle) :
    Option Obstacle :=
  (obstacles.foldl (closestStepObs self) none).map Prod.fst

/-- Return values of calculateTimeToCollision: undefined when there is no
closest object, -Infinity when the relative speed is not positive, otherwise
the finite quotient distance / relativeSpeed. -/
inductive TimeToCollision where
  | undef
  | negInf
  | val (t : ℚ)
deriving DecidableEq

def Obstacle.calculateTimeToCollision (self : Obstacle) (gameObjects : List GObj) :
    TimeToCollision :=
  match self.getClosestObject gameObjects with
  | none => .undef
  | some closestObstacle =>
    let distanceToClosestObstacle := qabs (self.x - closestObstacle.x)
    let relativeSpeed := self.speed - closestObstacle.speedOf
    if relativeSpeed ≤ 0 then .negInf
    else .val (distanceToClosestObstacle / relativeSpeed)

/-- calculateDistanceToClosestObject; the none result models the Infinity
returned when no object qualifies. -/
def Obstacle.calculateDistanceToClosestObject (self : Obstacle)
    (gameObjects : List GObj) : Option ℚ :=
  match self.getClosestObject gameObjects with
  | none => none
  | some closest => some (qabs (self.x - closest.x))

/-- The braking guard `timeToCollision && timeToCollision > 0 &&
timeToCollision < 100`.  undefined is falsy; -Infinity is truthy but fails
the positivity test; a finite value must additionally be nonzero to be
truthy. -/
def ttcBrakingPressure : TimeToCollision → Bool
  | .undef => false
  | .negInf => false
  | .val t => decide (t ≠ 0 ∧ 0 < t ∧ t < 100)

/-- Comparison of a possibly-Infinity distance with a finite bound:
Infinity < bound is always false. -/
def optLt (d : Option ℚ) (bound : ℚ) : Bool :=
  match d with
  | some v => decide (v < bound)
  | none => false

/-- emergencyVehicleDetected over the other obstacles (the source skips the
receiver via reference equality; callers here pass the receiver-free list). -/
def Obstacle.emergencyVehicleDetected (_self : Obstacle) (obstacles : List Obstacle) : Bool :=
  obstacles.any (fun obstacle => obstacle.emergencyVehicle)

/-- The hazard set of calculateSpeed: [...obstacles, player] with the receiver
filtered out (callers pass the receiver-free obstacle list). -/
def brakeHazards (player : Player) (others : List Obstacle) : List GObj :=
  others.map GObj.obs ++ [GObj.ply player]

/-- Obstacle.calculateSpeed.  Only BRAKE obstacles adjust their speed. -/
def Obstacle.calculateSpeed (self : Obstacle) (player : Player)
    (others : List Obstacle) : ℚ :=
  if self.avoidance = ObstacleAvoidanceType.BRAKE then
    let gameObjects := brakeHazards player others
    let timeToCollision := self.calculateTimeToCollision gameObjects
    let newSpeed1 :=
      if ttcBrakingPressure timeToCollision then self.speed - 1/2 else self.speed
    let distanceToClosest := self.calculateDistanceToClosestObject gameObjects
    let newSpeed2 := if optLt distanceToClosest 200 then newSpeed1 - 1/2 else newSpeed1
    let newSpeed3 :=
      if optLt distanceToClosest 100 || self.emergencyVehicleDetected others then
        newSpeed2 - 1
      else if self.originalSpeed ≠ 0 ∧ newSpeed2 < self.originalSpeed then
        newSpeed2 + 1/4
      else newSpeed2
    qmax newSpeed3 0
  else self.speed

/-- collisionDetected: does this obstacle intersect any other obstacle (the
source skips the receiver via reference equality; callers pass a list not
containing the receiver, except for the return preview noted at
calculateYForPassing). -/
def Obstacle.collisionDetected (self : Obstacle) (obstacles : List Obstacle) : Bool :=
  obstacles.any (fun obstacle => Rect.intersects self.toRect obstacle.toRect)

/-- The lane-change direction multiplier: -1 for RIGHT obstacles, 1 for LEFT
obstacles (this.direction === LaneDirection.RIGHT ? -1 : 1). -/
def passDir : LaneDirection → ℚ
  | .RIGHT => -1
  | .LEFT => 1

/-- Obstacle.calculateYForPassing.  The source returns early in several
places; the earlyReturn option models those returns.  The return preview is a
fresh object, so the reference-equality skips inside collisionDetected and
getClosestObject do not exclude the receiver from its checks; this is
harmless because the preview branch requires the receiver to be displaced by
strictly more than one height (so the preview never intersects the receiver)
and the preview shares the receiver's x (so the receiver is never strictly
ahead of it), hence passing the receiver-free list is equivalent. -/
def Obstacle.calculateYForPassing (self : Obstacle) (_player : Player)
    (obstacles : List Obstacle) : ℚ :=
  if self.avoidance ≠ ObstacleAvoidanceType.PASS then self.y
  else
    match self.getClosestObstacle obstacles with
    | none => self.y
    | some closestObstacle =>
      if self.speed < closestObstacle.speed then self.originalY
      else
        let distanceAwayFromOriginal := qabs (self.originalY - self.y)
        let earlyReturn : Option ℚ :=
          if self.height < distanceAwayFromOriginal then
            let returnPreview := self.clone self.x self.originalY
            if returnPreview.collisionDetected obstacles = false then
              match returnPreview.getClosestObstacle obstacles with
              | none => some self.originalY
              | some closestIfReturned =>
                if 5 * self.width < qabs (returnPreview.x - closestIfReturned.x) then
                  some self.originalY
                else none
            else none
          else none
        match earlyReturn with
        | some yReturned => yReturned
        | none =>
          if 2 * self.width < qabs (self.x - closestObstacle.x) then self.y
          else
            let yAdjustment := 8 * passDir self.direction
            if distanceAwayFromOriginal < self.height then self.y + yAdjustment
            else self.y

/-- Obstacle.moveObstacle.  others is the obstacle list the lane advances this
obstacle against, with the receiver removed (the source passes the full list
and filters by reference equality inside each helper). -/
def Obstacle.moveObstacle (self : Obstacle) (player : Player)
    (others : List Obstacle) : Obstacle :=
  let collided := self.detectCollisions && self.collisionDetected others
  if collided then
    { self with
      speed := 0,
      avoidance := ObstacleAvoidanceType.NONE,
      detectCollisions := false,
      emergencyVehicle := false }
  else
    let adjustedSpeed := self.calculateSpeed player others
    { self with
      x := self.x + adjustedSpeed * dirValue self.direction,
      y := self.calculateYForPassing player others,
      speed := adjustedSpeed }

/-- ObstacleProducer.  The mutable lastObstacleTime field is threaded
explicitly: readyForNext reads it, next returns the producer with the field
restamped. -/
structure ObstacleProducer where
  template : Obstacle
  maxFrequencyInSeconds : ℚ
  assignX : Bool
  randomizeTraffic : Bool
  lastObstacleTime : ℤ
deriving DecidableEq

/-- The ObstacleProducer constructor with its default arguments
(maxFrequencyInSeconds = 1, assignX = true, randomizeTraffic = true) and the
lastObstacleTime field initialised to 0. -/
def ObstacleProducer.make (template : Obstacle) : ObstacleProducer :=
  { template := template
    maxFrequencyInSeconds := 1
    assignX := true
    randomizeTraffic := true
    lastObstacleTime := 0 }

/-- ObstacleProducer.readyForNext: purely time gated.  The objects argument is
unused by the base class but kept for the subclass signatures.  now is
Date.now() in milliseconds. -/
def ObstacleProducer.readyForNext (p : ObstacleProducer) (_objects : List GObj)
    (now : ℤ) : Bool :=
  decide (((now - p.lastObstacleTime : ℤ) : ℚ) / 1000 > p.maxFrequencyInSeconds)

/-- ObstacleProducer.next: clones the template at the given x (or the
template's own x when assignX is false) and restamps lastObstacleTime. -/
def ObstacleProducer.next (p : ObstacleProducer) (x : ℚ) (now : ℤ) :
    Obstacle × ObstacleProducer :=
  let x2 := if p.assignX then x else p.template.x
  (p.template.clone x2 p.template.y, { p with lastObstacleTime := now })

/-- TargetObstacleProducer: fires only while the player intersects a target
zone. -/
structure TargetObstacleProducer where
  base : ObstacleProducer
  target : Rect
deriving DecidableEq

/-- The TargetObstacleProducer constructor: super(template,
maxFrequencyInSeconds, assignX, false), i.e. randomizeTraffic is always
false. -/
def TargetObstacleProducer.make (template : Obstacle) (maxFrequencyInSeconds : ℚ)
    (assignX : Bool) (target : Rect) : TargetObstacleProducer :=
  { base :=
      { template := template
        maxFrequencyInSeconds := maxFrequencyInSeconds
        assignX := assignX
        randomizeTraffic := false
        lastObstacleTime := 0 }
    target := target }

/-- TargetObstacleProducer.readyForNext: after the base time gate passes, a
missing player in the supplied objects is a thrown Error (modelled by the
error branch); otherwise the answer is whether the player intersects the
target. -/
def TargetObstacleProducer.readyForNext (p : TargetObstacleProducer)
    (objects : List GObj) (now : ℤ) : Except String Bool :=
  if p.base.readyForNext objects now then
    match findPlayer objects with
    | none =>
      .error "Player not found and is required for TargetObstacleProducer.readyForNext"
    | some player => .ok (Rect.intersects player.toRect p.target)
  else .ok false

/-- CrosswalkObstacleProducer: blocks courteous vehicles while the sign
flashes. -/
structure CrosswalkObstacleProducer where
  base : ObstacleProducer
deriving DecidableEq

/-- The CrosswalkObstacleProducer constructor: super(template, 100000, false,
false), i.e. randomizeTraffic is always false. -/
def CrosswalkObstacleProducer.make (template : Obstacle) : CrosswalkObstacleProducer :=
  { base :=
      { template := template
        maxFrequencyInSeconds := 100000
        assignX := false
        randomizeTraffic := false
        lastObstacleTime := 0 } }

/-- CrosswalkObstacleProducer.readyForNext: after the base time gate passes, a
missing crosswalk sign in the supplied objects is a thrown Error; otherwise
the answer is whether the sign is flashing. -/
def CrosswalkObstacleProducer.readyForNext (p : CrosswalkObstacleProducer)
    (objects : List GObj) (now : ℤ) : Except String Bool :=
  if p.base.readyForNext objects now then
    match findSign objects with
    | none =>
      .error "CrosswalkSign not found and is required for CrosswalkObstacleProducer.readyForNext"
    | some sign => .ok sign.flashing
  else .ok false

/-- Line style data of a lane (pure drawing configuration). -/
structure LaneLineStyle where
  color : String
  dashed : Bool
  hidden : Bool
  lineWidth : ℚ
  dashLength : ℚ
  dashOffLength : ℚ
deriving DecidableEq

structure LaneLinesStyles where
  top : LaneLineStyle
  bottom : LaneLineStyle
deriving DecidableEq

/-- Lane of the street module. -/
structure Lane where
  direction : LaneDirection
  laneWidth : ℚ
  streetLength : ℚ
  centerY : ℚ
  lineStyle : LaneLinesStyles
  obstacleProducers : List ObstacleProducer
  obstacles : List Obstacle
deriving DecidableEq

/-- Lane.addObstacle. -/
def Lane.addObstacle (lane : Lane) (obstacle : Obstacle) : Lane :=
  { lane with obstacles := lane.obstacles ++ [obstacle] }

/-- Lane.updateObstacles: advance every obstacle against the supplied street
obstacle list, then keep only the obstacles that have not exited the street.
The erase models the reference-equality filtering of the receiver from the
hazard list inside the obstacle methods. -/
def Lane.updateObstacles (lane : Lane) (player : Player)
    (obstacles : List Obstacle) : Lane :=
  let newObstacles :=
    (lane.obstacles.map (fun obstacle =>
        obstacle.moveObstacle player (obstacles.erase obstacle))).filter
      (fun obstacle =>
        if lane.direction = LaneDirection.LEFT then
          decide (0 < obstacle.x + obstacle.width)
        else decide (obstacle.x < lane.streetLength))
  { lane with obstacles := newObstacles }

/-- CrosswalkSign.flash: latch flashing on, select the given beacon, stamp the
toggle time. -/
def CrosswalkSign.flash (s : CrosswalkSign) (sequence : Bool) (now : ℤ) :
    CrosswalkSign :=
  { s with
    flashing := true,
    flashingSequence := sequence,
    timestampOfPreviousFlash := now }

/-- The flash interval constant (milliseconds). -/
def flashIntervalInMilliseconds : ℤ := 500

/-- The guard of CrosswalkSign.update: this.flashing || player &&
player.intersects(this.crosswalk). -/
def CrosswalkSign.playerInCrosswalk (s : CrosswalkSign) (others : List GObj) : Bool :=
  match findPlayer others with
  | some player => Rect.intersects player.toRect s.crosswalk
  | none => false

/-- CrosswalkSign.update. -/
def CrosswalkSign.update (s : CrosswalkSign) (others : List GObj) (now : ℤ) :
    CrosswalkSign :=
  if s.flashing || s.playerInCrosswalk others then
    if now - s.timestampOfPreviousFlash > flashIntervalInMilliseconds then
      s.flash (!s.flashingSequence) now
    else s
  else s

/-- The bounded spawn retry loop of Street.generateObstacles (the do-while
with the attempts circuit breaker unrolled: the loop body runs once, then
repeats while attempts < 3 and the candidate collides with the lane's
obstacles).  Returns the final candidate, the producer after its next calls,
and the number of attempts. -/
def produceLoop (producer : ObstacleProducer) (laneObstacles : List Obstacle)
    (direction : LaneDirection) (x0 : ℚ) (now : ℤ) :
    Obstacle × ObstacleProducer × ℕ :=
  let r1 := producer.next x0 now
  if r1.1.collisionDetected laneObstacles then
    let x1 := x0 + 2 * r1.1.width * (-(dirValue direction))
    let r2 := r1.2.next x1 now
    if r2.1.collisionDetected laneObstacles then
      let x2 := x1 + 2 * r2.1.width * (-(dirValue direction))
      let r3 := r2.2.next x2 now
      (r3.1, r3.2, 3)
    else (r2.1, r2.2, 2)
  else (r1.1, r1.2, 1)

/-- The firing branch of Street.generateObstacles for one producer: run the
retry loop and add the final candidate to the lane unconditionally. -/
def fireProducer (producer : ObstacleProducer) (lane : Lane) (x0 : ℚ) (now : ℤ) :
    Lane × ObstacleProducer :=
  let r := produceLoop producer lane.obstacles lane.direction x0 now
  (lane.addObstacle r.1, r.2.1)

/-- The per-producer firing condition of Street.generateObstacles: the
producer must report ready, and must either opt out of randomized traffic or
carry the index chosen at random for this tick. -/
def producerFires (ready : Bool) (randomizeTraffic : Bool)
    (index randomProducerIndex : ℕ) : Bool :=
  ready && (!randomizeTraffic || index == randomProducerIndex)

/-- The drop condition of claim C5, stated from the claim's words: a
LEFT-direction obstacle has exited once x + width <= 0, a RIGHT-direction
obstacle once x >= streetLength. -/
def exitedLane (direction : LaneDirection) (streetLength : ℚ) (o : Obstacle) : Bool :=
  match direction with
  | .LEFT => decide (o.x + o.width ≤ 0)
  | .RIGHT => decide (streetLength ≤ o.x)

/-- The per-tick BRAKE speed rule exactly as claim C1 words it: subtract 0.5
under braking pressure from the time to collision, a further 0.5 when the
closest hazard is nearer than 200, a further 1 when it is nearer than 100 or
another obstacle is an emergency vehicle, otherwise add back 0.25 whenever
the running speed is below the original speed; clamp at 0. -/
def claimSpeedC1 (self : Obstacle) (player : Player) (others : List Obstacle) : ℚ :=
  let gameObjects := brakeHazards player others
  let timeToCollision := self.calculateTimeToCollision gameObjects
  let s1 := if ttcBrakingPressure timeToCollision then self.speed - 1/2 else self.speed
  let distanceToClosest := self.calculateDistanceToClosestObject gameObjects
  let s2 := if optLt distanceToClosest 200 then s1 - 1/2 else s1
  let s3 :=
    if optLt distanceToClosest 100 || self.emergencyVehicleDetected others then s2 - 1
    else if s2 < self.originalSpeed then s2 + 1/4
    else s2
  qmax s3 0

/-- Claim C1 as amended: identical to claimSpeedC1 except that the add-back
step additionally requires the original speed to be nonzero, matching the
truthiness guard this.originalSpeed && of the source. -/
def claimSpeedC1Amended (self : Obstacle) (player : Player) (others : List Obstacle) : ℚ :=
  let gameObjects := brakeHazards player others
  let timeToCollision := self.calculateTimeToCollision gameObjects
  let s1 := if ttcBrakingPressure timeToCollision then self.speed - 1/2 else self.speed
  let distanceToClosest := self.calculateDistanceToClosestObject gameObjects
  let s2 := if optLt distanceToClosest 200 then s1 - 1/2 else s1
  let s3 :=
    if optLt distanceToClosest 100 || self.emergencyVehicleDetected others then s2 - 1
    else if self.originalSpeed ≠ 0 ∧ s2 < self.originalSpeed then s2 + 1/4
    else s2
  qmax s3 0

/-- quarterGrid q: q is an integer multiple of 1/4.  All BRAKE speed deltas
(0.5, 1, 0.25) and the clamp at 0 stay on this grid. -/
def quarterGrid (q : ℚ) : Prop := ∃ k : ℤ, q = k / 4

/-- The state invariant along a BRAKE obstacle's trajectory: nonnegative
speed, speed at most the original speed, and both on the quarter grid.  A
freshly produced obstacle (speed = originalSpeed, an ObstacleSpeeds value)
satisfies it. -/
def brakeInv (o : Obstacle) : Prop :=
  0 ≤ o.speed ∧ o.speed ≤ o.originalSpeed ∧ quarterGrid o.speed ∧
    quarterGrid o.originalSpeed

/-- Some hazard (other obstacle or the player) in this obstacle's lane band
and strictly ahead of it lies strictly within distance d. -/
def hazardWithin (o : Obstacle) (player : Player) (others : List Obstacle)
    (d : ℚ) : Prop :=
  ∃ g ∈ brakeHazards player others,
    o.aheadInLane g.x g.y = true ∧ qabs (o.x - g.x) < d

/-- Every hazard in this obstacle's lane band and strictly ahead of it is at
least distance d away. -/
def noHazardWithin (o : Obstacle) (player : Player) (others : List Obstacle)
    (d : ℚ) : Prop :=
  ∀ g ∈ brakeHazards player others,
    o.aheadInLane g.x g.y = true → d ≤ qabs (o.x - g.x)

/-- Concrete instance for claim C1: a BRAKE obstacle whose original speed is
zero while its running speed is positive, with one stopped hazard 150 units
ahead in its lane band and the player out of band. -/
def obstacleC1 : Obstacle := ⟨0, 0, 10, 10, 2/5, .RIGHT, .BRAKE, false, false, 0, 0⟩

def hazardC1 : Obstacle := ⟨150, 0, 10, 10, 0, .RIGHT, .NONE, false, false, 0, 0⟩

def playerC1 : Player := ⟨1000, 1000, 10, 10⟩

/-- Concrete instance for claim C2: a BRAKE obstacle with a stopped hazard 50
units ahead in its lane band. -/
def obstacleC2w : Obstacle := ⟨0, 0, 10, 10, 4, .RIGHT, .BRAKE, false, false, 4, 0⟩

def hazardC2w : Obstacle := ⟨50, 0, 10, 10, 0, .RIGHT, .NONE, false, false, 0, 0⟩

def playerC2w : Player := ⟨1000, 1000, 10, 10⟩

/-- Concrete instance for claim C3's counterexample: a PASS obstacle displaced
from its original lane, slower than the closest obstacle ahead of it, which
sits farther than two widths away. -/
def obstacleC3 : Obstacle := ⟨0, 50, 10, 10, 1, .RIGHT, .PASS, false, false, 1, 0⟩

def fasterC3 : Obstacle := ⟨100, 50, 10, 10, 5, .RIGHT, .NONE, false, false, 5, 50⟩

def playerC3 : Player := ⟨1000, 1000, 10, 10⟩

/-- Concrete instance for claim C3's witness: a PASS obstacle flush with its
lane, at least as fast as the closest obstacle ahead, which sits within two
widths. -/
def obstacleC3w : Obstacle := ⟨0, 0, 10, 10, 4, .RIGHT, .PASS, false, false, 4, 0⟩

def slowC3w : Obstacle := ⟨15, 0, 10, 10, 2, .RIGHT, .NONE, false, false, 2, 0⟩

def playerC3w : Player := ⟨1000, 1000, 10, 10⟩

/-- Concrete instance for claim C4: a collision-sensitive obstacle overlapping
another obstacle. -/
def obstacleC4 : Obstacle := ⟨0, 0, 10, 10, 4, .RIGHT, .NONE, true, true, 4, 0⟩

def otherC4 : Obstacle := ⟨5, 5, 10, 10, 0, .RIGHT, .NONE, false, false, 0, 5⟩

def playerC4 : Player := ⟨100, 100, 10, 10⟩

/-- Concrete instance for claim C6: a flashing sign last toggled at time 0. -/
def signC6 : CrosswalkSign := ⟨0, 0, .RIGHT, ⟨0, 0, 10, 10⟩, true, false, 0⟩

def signC6w : CrosswalkSign := ⟨0, 0, .LEFT, ⟨0, 0, 10, 10⟩, true, false, 0⟩

/-- Concrete instance for claim C7: a producer with max frequency 1 second. -/
def templateC7 : Obstacle := ⟨0, 0, 10, 10, 4, .RIGHT, .NONE, false, false, 4, 0⟩

def producerC7 : ObstacleProducer := ObstacleProducer.make templateC7

/-- Concrete instance for claim C8: a target producer invoked with no player
in the supplied entity set. -/
def templateC8 : Obstacle := ⟨0, 0, 10, 10, 4, .RIGHT, .NONE, false, false, 4, 0⟩

def targetProducerC8 : TargetObstacleProducer :=
  TargetObstacleProducer.make templateC8 1 true ⟨0, 0, 10, 10⟩

def crosswalkProducerC8 : CrosswalkObstacleProducer :=
  CrosswalkObstacleProducer.make templateC8

lemma quarterGrid_zero : quarterGrid 0 := ⟨0, by norm_num⟩

lemma quarterGrid_sub_half {a : ℚ} (h : quarterGrid a) : quarterGrid (a - 1/2) := by
  obtain ⟨k, rfl⟩ := h
  exact ⟨k - 2, by push_cast; ring⟩

lemma quarterGrid_sub_one {a : ℚ} (h : quarterGrid a) : quarterGrid (a - 1) := by
  obtain ⟨k, rfl⟩ := h
  exact ⟨k - 4, by push_cast; ring⟩

lemma quarterGrid_add_quarter {a : ℚ} (h : quarterGrid a) : quarterGrid (a + 1/4) := by
  obtain ⟨k, rfl⟩ := h
  exact ⟨k + 1, by push_cast; ring⟩

/-- Two quarter-grid rationals strictly apart are at least a quarter apart. -/
lemma quarterGrid_add_quarter_le {a b : ℚ} (ha : quarterGrid a) (hb : quarterGrid b)
    (h : a < b) : a + 1/4 ≤ b := by
  obtain ⟨k, rfl⟩ := ha
  obtain ⟨m, rfl⟩ := hb
  have hq : (k : ℚ) < m := by linarith
  have hz : k < m := by exact_mod_cast hq
  have hz1 : k + 1 ≤ m := hz
  have : ((k + 1 : ℤ) : ℚ) ≤ m := by exact_mod_cast hz1
  push_cast at this
  linarith

lemma closestStep_some_of_ahead (o : Obstacle) (acc : Option (GObj × ℚ)) (g : GObj)
    (hq : o.aheadInLane g.x g.y = true) :
    ∃ pa, closestStep o acc g = some pa ∧ pa.2 ≤ qabs (o.x - g.x) := by
  cases acc with
  | none => exact ⟨(g, qabs (o.x - g.x)), by simp [closestStep, hq], le_refl _⟩
  | some pr =>
    by_cases hlt : qabs (o.x - g.x) < pr.2
    · exact ⟨(g, qabs (o.x - g.x)), by simp [closestStep, hq, hlt], le_refl _⟩
    · exact ⟨pr, by simp [closestStep, hq, hlt], le_of_not_lt hlt⟩

lemma closestStep_le_acc (o : Obstacle) (acc : Option (GObj × ℚ)) (g : GObj)
    (pa0 : GObj × ℚ) (hacc : acc = some pa0) :
    ∃ pa, closestStep o acc g = some pa ∧ pa.2 ≤ pa0.2 := by
  subst hacc
  by_cases hq : o.aheadInLane g.x g.y = true
  · by_cases hlt : qabs (o.x - g.x) < pa0.2
    · exact ⟨(g, qabs (o.x - g.x)), by simp [closestStep, hq, hlt], le_of_lt hlt⟩
    · exact ⟨pa0, by simp [closestStep, hq, hlt], le_refl _⟩
  · exact ⟨pa0, by simp [closestStep, hq], le_refl _⟩

lemma foldl_closestStep_sound (o : Obstacle) (objs : List GObj) :
    ∀ (acc : Option (GObj × ℚ)) (pr : GObj × ℚ),
      objs.foldl (closestStep o) acc = some pr →
      acc = some pr ∨ (pr.1 ∈ objs ∧ o.aheadInLane pr.1.x pr.1.y = true ∧
        pr.2 = qabs (o.x - pr.1.x)) := by
  induction objs with
  | nil =>
    intro acc pr h
    exact Or.inl (by simpa using h)
  | cons g tl ih =>
    intro acc pr h
    rcases ih (closestStep o acc g) pr (by simpa using h) with hacc | hmem
    · by_cases hq : o.aheadInLane g.x g.y = true
      · cases acc with
        | none =>
          have hpr : (g, qabs (o.x - g.x)) = pr := by
            simpa [closestStep, hq] using hacc
          refine Or.inr ?_
          rw [← hpr]
          exact ⟨List.mem_cons_self _ _, hq, rfl⟩
        | some pa =>
          by_cases hlt : qabs (o.x - g.x) < pa.2
          · have hpr : (g, qabs (o.x - g.x)) = pr := by
              simpa [closestStep, hq, hlt] using hacc
            refine Or.inr ?_
            rw [← hpr]
            exact ⟨List.mem_cons_self _ _, hq, rfl⟩
          · have hpr : some pa = some pr := by
              simpa [closestStep, hq, hlt] using hacc
            exact Or.inl hpr
      · have hpr : acc = some pr := by
          simpa [closestStep, hq] using hacc
        exact Or.inl hpr
    · exact Or.inr ⟨List.mem_cons_of_mem _ hmem.1, hmem.2⟩

lemma foldl_closestStep_min (o : Obstacle) (objs : List GObj) :
    ∀ (acc : Option (GObj × ℚ)) (pr : GObj × ℚ),
      objs.foldl (closestStep o) acc = some pr →
      (∀ g ∈ objs, o.aheadInLane g.x g.y = true → pr.2 ≤ qabs (o.x - g.x)) ∧
      (∀ pa, acc = some pa → pr.2 ≤ pa.2) := by
  induction objs with
  | nil =>
    intro acc pr h
    refine ⟨by simp, ?_⟩
    intro pa hpa
    rw [hpa] at h
    simp only [List.foldl_nil, Option.some.injEq] at h
    rw [h]
  | cons g tl ih =>
    intro acc pr h
    have hstep := ih (closestStep o acc g) pr (by simpa using h)
    constructor
    · intro g' hg' hq'
      rcases List.mem_cons.mp hg' with rfl | hmem
      · obtain ⟨pa, hs, hle⟩ := closestStep_some_of_ahead o acc g' hq'
        exact le_trans (hstep.2 pa hs) hle
      · exact hstep.1 g' hmem hq'
    · intro pa0 hacc
      obtain ⟨pa, hs, hle⟩ := closestStep_le_acc o acc g pa0 hacc
      exact le_trans (hstep.2 pa hs) hle

lemma foldl_closestStep_isSome (o : Obstacle) (objs : List GObj) :
    ∀ (acc : Option (GObj × ℚ)),
      (acc.isSome = true ∨ ∃ g ∈ objs, o.aheadInLane g.x g.y = true) →
      (objs.foldl (closestStep o) acc).isSome = true := by
  induction objs with
  | nil =>
    intro acc h
    simpa using h.resolve_right (by simp)
  | cons g tl ih =>
    intro acc h
    simp only [List.foldl_cons]
    apply ih
    rcases h with hacc | ⟨g', hg', hq⟩
    · left
      obtain ⟨pa0, hpa0⟩ := Option.isSome_iff_exists.mp hacc
      obtain ⟨pa, hs, _⟩ := closestStep_le_acc o acc g pa0 hpa0
      simp [hs]
    · rcases List.mem_cons.mp hg' with rfl | hmem
      · left
        obtain ⟨pa, hs, _⟩ := closestStep_some_of_ahead o acc g' hq
        simp [hs]
      · right
        exact ⟨g', hmem, hq⟩

/-- When some qualifying object lies strictly within the bound, the distance
to the closest object is strictly within the bound too. -/
lemma distanceToClosest_lt (o : Obstacle) (objs : List GObj) (bound : ℚ)
    (h : ∃ g ∈ objs, o.aheadInLane g.x g.y = true ∧ qabs (o.x - g.x) < bound) :
    optLt (o.calculateDistanceToClosestObject objs) bound = true := by
  obtain ⟨g, hg, hq, hd⟩ := h
  have hsome := foldl_closestStep_isSome o objs none (Or.inr ⟨g, hg, hq⟩)
  obtain ⟨pr, hpr⟩ := Option.isSome_iff_exists.mp hsome
  have hmin := (foldl_closestStep_min o objs none pr hpr).1 g hg hq
  have hsound := (foldl_closestStep_sound o objs none pr hpr).resolve_left (by simp)
  unfold Obstacle.calculateDistanceToClosestObject Obstacle.getClosestObject closestFold
  rw [hpr]
  simp only [Option.map_some', optLt, decide_eq_true_eq]
  rw [← hsound.2.2]
  exact lt_of_le_of_lt hmin hd


/-- Claim C1 (amended): for every obstacle with avoidance BRAKE that does not
crash this tick, moveObstacle computes the new speed from the current speed
by, in this strict order: subtracting 0.5 when the time-to-collision with the
closest hazard ahead is strictly between 0 and 100, subtracting a further 0.5
when the distance to that hazard is below 200, subtracting a further 1 when
that distance is below 100 or another obstacle in the hazard set is an
emergency vehicle, otherwise adding 0.25 when the original speed is nonzero
and the running speed is still below it, and finally clamping at 0. -/
theorem claim_C1_amended (o : Obstacle) (p : Player) (others : List Obstacle)
    (hB : o.avoidance = ObstacleAvoidanceType.BRAKE)
    (hnc : (o.detectCollisions && o.collisionDetected others) = false) :
    (o.moveObstacle p others).speed = claimSpeedC1Amended o p others := by
  simp only [Obstacle.moveObstacle, hnc, Bool.false_eq_true, if_false,
    Obstacle.calculateSpeed, hB, if_true, claimSpeedC1Amended]

/-- Claim C1 as frozen is false: with a zero original speed and running speed
2/5, a single stopped hazard 150 units ahead makes the code's next speed 0 (no
add-back because the original speed is falsy) while the claim's delta chain
yields 3/20. -/
theorem claim_C1_counterexample :
    obstacleC1.avoidance = ObstacleAvoidanceType.BRAKE ∧
    obstacleC1.detectCollisions = false ∧
    (obstacleC1.moveObstacle playerC1 [hazardC1]).speed = 0 ∧
    claimSpeedC1 obstacleC1 playerC1 [hazardC1] = 3/20 := by
  refine ⟨rfl, rfl, ?_, ?_⟩
  · norm_num [Obstacle.moveObstacle, Obstacle.collisionDetected,
      Obstacle.calculateSpeed, Obstacle.calculateTimeToCollision,
      Obstacle.calculateDistanceToClosestObject, Obstacle.getClosestObject,
      closestFold, closestStep, brakeHazards, Obstacle.aheadInLane, qabs, qmax,
      ttcBrakingPressure, optLt, Obstacle.emergencyVehicleDetected,
      Obstacle.calculateYForPassing, GObj.x, GObj.y, GObj.speedOf,
      obstacleC1, hazardC1, playerC1]
  · norm_num [claimSpeedC1, Obstacle.calculateTimeToCollision,
      Obstacle.calculateDistanceToClosestObject, Obstacle.getClosestObject,
      closestFold, closestStep, brakeHazards, Obstacle.aheadInLane, qabs, qmax,
      ttcBrakingPressure, optLt, Obstacle.emergencyVehicleDetected,
      GObj.x, GObj.y, GObj.speedOf, obstacleC1, hazardC1, playerC1]

/-- Witness for claim C1's amended theorem at the concrete instance. -/
theorem claim_C1_witness :
    (obstacleC1.moveObstacle playerC1 [hazardC1]).speed =
      claimSpeedC1Amended obstacleC1 playerC1 [hazardC1] :=
  claim_C1_amended obstacleC1 playerC1 [hazardC1] rfl rfl

/-- Claim C4: for every obstacle with detectCollisions true whose bounding box
overlaps another obstacle in the list it is advanced against, moveObstacle
returns the crashed terminal variant (speed 0, detectCollisions false,
emergencyVehicle false, avoidance NONE, position, size and the two origin
fields unchanged), and that state is permanent: advancing the crashed
obstacle again returns it unchanged, so it never satisfies the crash
condition again. -/
theorem claim_C4 (o : Obstacle) (p : Player) (others : List Obstacle)
    (hd : o.detectCollisions = true) (hc : o.collisionDetected others = true) :
    (o.moveObstacle p others).speed = 0 ∧
    (o.moveObstacle p others).detectCollisions = false ∧
    (o.moveObstacle p others).emergencyVehicle = false ∧
    (o.moveObstacle p others).avoidance = ObstacleAvoidanceType.NONE ∧
    (o.moveObstacle p others).x = o.x ∧
    (o.moveObstacle p others).y = o.y ∧
    (o.moveObstacle p others).width = o.width ∧
    (o.moveObstacle p others).height = o.height ∧
    (o.moveObstacle p others).originalSpeed = o.originalSpeed ∧
    (o.moveObstacle p others).originalY = o.originalY ∧
    (∀ (p2 : Player) (others2 : List Obstacle),
      (o.moveObstacle p others).moveObstacle p2 others2 = o.moveObstacle p others) := by
  have hcrash : o.moveObstacle p others =
      { o with
        speed := 0,
        avoidance := ObstacleAvoidanceType.NONE,
        detectCollisions := false,
        emergencyVehicle := false } := by
    simp [Obstacle.moveObstacle, hd, hc]
  rw [hcrash]
  refine ⟨rfl, rfl, rfl, rfl, rfl, rfl, rfl, rfl, rfl, rfl, ?_⟩
  intro p2 others2
  apply Obstacle.ext <;>
    simp [Obstacle.moveObstacle, Obstacle.calculateSpeed, Obstacle.calculateYForPassing]

/-- Witness for claim C4 at the concrete overlapping pair. -/
theorem claim_C4_witness :
    (obstacleC4.moveObstacle playerC4 [otherC4]).speed = 0 ∧
    (obstacleC4.moveObstacle playerC4 [otherC4]).detectCollisions = false := by
  have h := claim_C4 obstacleC4 playerC4 [otherC4] rfl
    (by norm_num [Obstacle.collisionDetected, Rect.intersects, Obstacle.toRect,
      obstacleC4, otherC4])
  exact ⟨h.1, h.2.1⟩

/-- Claim C5: Lane.updateObstacles first advances every obstacle against the
supplied street obstacle list and then keeps exactly the advanced obstacles
that have not exited: a LEFT-direction obstacle is dropped iff its post-move
x + width <= 0 and a RIGHT-direction obstacle iff its post-move
x >= streetLength; every other lane field is unchanged. -/
theorem claim_C5 (lane : Lane) (player : Player) (obstacles : List Obstacle) :
    (lane.updateObstacles player obstacles).obstacles =
      ((lane.obstacles.map (fun o => o.moveObstacle player (obstacles.erase o))).filter
        (fun o => !exitedLane lane.direction lane.streetLength o)) ∧
    (lane.updateObstacles player obstacles).direction = lane.direction ∧
    (lane.updateObstacles player obstacles).laneWidth = lane.laneWidth ∧
    (lane.updateObstacles player obstacles).streetLength = lane.streetLength ∧
    (lane.updateObstacles player obstacles).centerY = lane.centerY ∧
    (lane.updateObstacles player obstacles).lineStyle = lane.lineStyle ∧
    (lane.updateObstacles player obstacles).obstacleProducers = lane.obstacleProducers := by
  refine ⟨?_, rfl, rfl, rfl, rfl, rfl, rfl⟩
  simp only [Lane.updateObstacles]
  apply List.filter_congr
  intro o _
  cases lane.direction <;>
    simp [exitedLane, ← decide_not, not_le]

/-- Claim C7: the base readyForNext holds exactly when the elapsed seconds
since the last emission strictly exceed the configured max frequency; next
restamps the last-emission time; hence a producer with max frequency 1 second
that has just emitted cannot be ready again until strictly more than 1000 ms
later, so it emits at most one obstacle per 1000 ms window. -/
theorem claim_C7 (p : ObstacleProducer) (objects objects2 : List GObj)
    (x : ℚ) (now t1 t2 : ℤ) :
    (p.readyForNext objects now = true ↔
      ((now - p.lastObstacleTime : ℤ) : ℚ) / 1000 > p.maxFrequencyInSeconds) ∧
    ((p.next x t1).2.lastObstacleTime = t1) ∧
    (p.maxFrequencyInSeconds = 1 →
      (p.next x t1).2.readyForNext objects2 t2 = true → t2 - t1 > 1000) := by
  refine ⟨by simp [ObstacleProducer.readyForNext], rfl, ?_⟩
  intro hf hr
  simp only [ObstacleProducer.readyForNext, ObstacleProducer.next, hf,
    decide_eq_true_eq] at hr
  have h1000 : (0 : ℚ) < 1000 := by norm_num
  have h2 : (1 : ℚ) * 1000 < ((t2 - t1 : ℤ) : ℚ) := (lt_div_iff₀ h1000).mp hr
  have h3 : ((1000 : ℤ) : ℚ) < ((t2 - t1 : ℤ) : ℚ) := by
    push_cast at h2 ⊢
    linarith
  exact_mod_cast h3

/-- Witness for claim C7: the producer with max frequency 1 that emitted at
time 700 and is ready again at time 2500 shows the gap exceeds 1000 ms. -/
theorem claim_C7_witness :
    ((2500 : ℤ) - 700 > 1000) ∧ (producerC7.next 0 700).2.lastObstacleTime = 700 := by
  have h := claim_C7 producerC7 [] [] 0 0 700 2500
  refine ⟨h.2.2 rfl ?_, h.2.1⟩
  norm_num [ObstacleProducer.next, ObstacleProducer.readyForNext, producerC7,
    ObstacleProducer.make]

/-- Claim C8: the target-gated readyForNext throws exactly when its time gate
has passed and the supplied entity set contains no player, and the
crosswalk-gated readyForNext throws exactly when its time gate has passed and
the set contains no crosswalk sign; when the time gate has not passed both
return the boolean false. -/
theorem claim_C8 (pt : TargetObstacleProducer) (pc : CrosswalkObstacleProducer)
    (objects : List GObj) (now : ℤ) :
    ((∃ e, pt.readyForNext objects now = .error e) ↔
      (pt.base.readyForNext objects now = true ∧ findPlayer objects = none)) ∧
    ((∃ e, pc.readyForNext objects now = .error e) ↔
      (pc.base.readyForNext objects now = true ∧ findSign objects = none)) ∧
    (pt.base.readyForNext objects now = false →
      pt.readyForNext objects now = .ok false) ∧
    (pc.base.readyForNext objects now = false →
      pc.readyForNext objects now = .ok false) := by
  refine ⟨?_, ?_, ?_, ?_⟩
  · unfold TargetObstacleProducer.readyForNext
    cases hb : pt.base.readyForNext objects now
    · simp [hb]
    · cases hp : findPlayer objects <;> simp [hb, hp]
  · unfold CrosswalkObstacleProducer.readyForNext
    cases hb : pc.base.readyForNext objects now
    · simp [hb]
    · cases hs : findSign objects <;> simp [hb, hs]
  · intro hb
    simp [TargetObstacleProducer.readyForNext, hb]
  · intro hb
    simp [CrosswalkObstacleProducer.readyForNext, hb]

/-- Witness for claim C8: a target producer whose gate has passed, invoked on
an empty entity set, throws. -/
theorem claim_C8_witness :
    ∃ e, targetProducerC8.readyForNext [] 5000 = .error e :=
  (claim_C8 targetProducerC8 crosswalkProducerC8 [] 5000).1.mpr
    ⟨by norm_num [ObstacleProducer.readyForNext, targetProducerC8,
      TargetObstacleProducer.make], rfl⟩

/-- Claim C10: the target-gated and crosswalk-gated constructors always pass
randomizeTraffic = false to the base constructor while the plain constructor
defaults it to true, and the firing condition of Street.generateObstacles
reduces to readiness alone for producers with randomizeTraffic false, while
randomizing producers additionally need their index to equal the randomly
chosen one. -/
theorem claim_C10 :
    (∀ template maxFrequencyInSeconds assignX target,
      (TargetObstacleProducer.make template maxFrequencyInSeconds assignX
        target).base.randomizeTraffic = false) ∧
    (∀ template,
      (CrosswalkObstacleProducer.make template).base.randomizeTraffic = false) ∧
    (∀ template, (ObstacleProducer.make template).randomizeTraffic = true) ∧
    (∀ ready index randomProducerIndex,
      producerFires ready false index randomProducerIndex = ready) ∧
    (∀ ready randomize index randomProducerIndex,
      producerFires ready randomize index randomProducerIndex =
        (ready && (!randomize || index == randomProducerIndex))) := by
  refine ⟨fun _ _ _ _ => rfl, fun _ => rfl, fun _ => rfl, ?_, fun _ _ _ _ => rfl⟩
  intro ready i r
  cases ready <;> simp [producerFires]

/-- Every run of the spawn retry loop produces a clone of the producer's
template (at some x, at the template's y), leaves the producer restamped to
now, and takes between 1 and 3 attempts. -/
lemma produceLoop_spec (p : ObstacleProducer) (l : List Obstacle)
    (dir : LaneDirection) (x0 : ℚ) (now : ℤ) :
    ∃ (cx : ℚ) (n : ℕ),
      produceLoop p l dir x0 now =
        (p.template.clone cx p.template.y, { p with lastObstacleTime := now }, n) ∧
      1 ≤ n ∧ n ≤ 3 := by
  cases hb1 : (p.next x0 now).1.collisionDetected l with
  | false =>
    refine ⟨if p.assignX then x0 else p.template.x, 1, ?_, by norm_num, by norm_num⟩
    simp only [produceLoop, hb1, Bool.false_eq_true, if_false]
    simp [ObstacleProducer.next]
  | true =>
    cases hb2 : ((p.next x0 now).2.next
        (x0 + 2 * (p.next x0 now).1.width * (-(dirValue dir))) now).1.collisionDetected l with
    | false =>
      refine ⟨if p.assignX then
          x0 + 2 * (p.next x0 now).1.width * (-(dirValue dir)) else p.template.x, 2,
        ?_, by norm_num, by norm_num⟩
      simp only [produceLoop, hb1, hb2, Bool.false_eq_true, if_false, if_true]
      simp [ObstacleProducer.next]
    | true =>
      refine ⟨if p.assignX then
          x0 + 2 * (p.next x0 now).1.width * (-(dirValue dir)) +
            2 * ((p.next x0 now).2.next
              (x0 + 2 * (p.next x0 now).1.width * (-(dirValue dir))) now).1.width *
              (-(dirValue dir)) else p.template.x, 3,
        ?_, by norm_num, by norm_num⟩
      simp only [produceLoop, hb1, hb2, if_true]
      simp [ObstacleProducer.next]

/-- Claim C9: a producer that fires appends exactly one obstacle to the lane
unconditionally; the retry loop makes between one and three attempts, each
attempt is a clone of the template so the candidate inherits every template
field except x, and the producer ends restamped to the current time. -/
theorem claim_C9 (p : ObstacleProducer) (lane : Lane) (x0 : ℚ) (now : ℤ) :
    ∃ cand : Obstacle,
      (fireProducer p lane x0 now).1.obstacles = lane.obstacles ++ [cand] ∧
      cand = (produceLoop p lane.obstacles lane.direction x0 now).1 ∧
      (fireProducer p lane x0 now).2.lastObstacleTime = now ∧
      1 ≤ (produceLoop p lane.obstacles lane.direction x0 now).2.2 ∧
      (produceLoop p lane.obstacles lane.direction x0 now).2.2 ≤ 3 ∧
      cand.y = p.template.y ∧ cand.width = p.template.width ∧
      cand.height = p.template.height ∧ cand.speed = p.template.speed ∧
      cand.direction = p.template.direction ∧
      cand.avoidance = p.template.avoidance ∧
      cand.detectCollisions = p.template.detectCollisions ∧
      cand.emergencyVehicle = p.template.emergencyVehicle ∧
      cand.originalSpeed = p.template.originalSpeed ∧
      cand.originalY = p.template.originalY := by
  obtain ⟨cx, n, heq, hn1, hn3⟩ :=
    produceLoop_spec p lane.obstacles lane.direction x0 now
  have hcand : (produceLoop p lane.obstacles lane.direction x0 now).1 =
      p.template.clone cx p.template.y := by rw [heq]
  have hprod : (produceLoop p lane.obstacles lane.direction x0 now).2.1 =
      { p with lastObstacleTime := now } := by rw [heq]
  have hn : (produceLoop p lane.obstacles lane.direction x0 now).2.2 = n := by rw [heq]
  refine ⟨(produceLoop p lane.obstacles lane.direction x0 now).1,
    by simp [fireProducer, Lane.addObstacle], rfl, ?_, ?_, ?_,
    ?_, ?_, ?_, ?_, ?_, ?_, ?_, ?_, ?_, ?_⟩
  · simp only [fireProducer]
    rw [hprod]
  · rw [hn]; exact hn1
  · rw [hn]; exact hn3
  · rw [hcand]; simp [Obstacle.clone]
  · rw [hcand]; simp [Obstacle.clone]
  · rw [hcand]; simp [Obstacle.clone]
  · rw [hcand]; simp [Obstacle.clone]
  · rw [hcand]; simp [Obstacle.clone]
  · rw [hcand]; simp [Obstacle.clone]
  · rw [hcand]; simp [Obstacle.clone]
  · rw [hcand]; simp [Obstacle.clone]
  · rw [hcand]; simp [Obstacle.clone]
  · rw [hcand]; simp [Obstacle.clone]

/-- Claim C6 (amended): on each update tick the sequence flag is flipped and
the toggle timestamp restamped (and flashing set true) if and only if the
signal is already flashing or the player intersects the monitored crosswalk
zone, and strictly more than 500 ms have elapsed since the previous toggle;
when the transition does not fire the signal is returned unchanged; and once
flashing, an update never returns a signal with flashing false. -/
theorem claim_C6_amended (s : CrosswalkSign) (others : List GObj) (now : ℤ) :
    (((s.update others now).flashingSequence = !s.flashingSequence ∧
      (s.update others now).timestampOfPreviousFlash = now ∧
      (s.update others now).flashing = true) ↔
      ((s.flashing = true ∨ s.playerInCrosswalk others = true) ∧
        now - s.timestampOfPreviousFlash > 500)) ∧
    (¬ ((s.flashing = true ∨ s.playerInCrosswalk others = true) ∧
        now - s.timestampOfPreviousFlash > 500) → s.update others now = s) ∧
    (s.flashing = true → (s.update others now).flashing = true) := by
  by_cases hor : (s.flashing || s.playerInCrosswalk others) = true
  · by_cases ht : now - s.timestampOfPreviousFlash > flashIntervalInMilliseconds
    · have hupd : s.update others now = s.flash (!s.flashingSequence) now := by
        simp [CrosswalkSign.update, hor, ht]
      rw [hupd]
      refine ⟨?_, ?_, fun _ => rfl⟩
      · constructor
        · intro _
          exact ⟨by simpa using hor, by simpa [flashIntervalInMilliseconds] using ht⟩
        · intro _
          refine ⟨?_, ?_, ?_⟩ <;> simp [CrosswalkSign.flash]
      · intro hcon
        exact absurd ⟨by simpa using hor,
          by simpa [flashIntervalInMilliseconds] using ht⟩ hcon
    · have hupd : s.update others now = s := by
        simp [CrosswalkSign.update, hor, ht]
      rw [hupd]
      refine ⟨?_, fun _ => rfl, fun h => h⟩
      constructor
      · intro hflip
        exact absurd hflip.1 (by simp)
      · intro hcon
        exact absurd (by simpa [flashIntervalInMilliseconds] using hcon.2) ht
  · have hupd : s.update others now = s := by
      simp [CrosswalkSign.update, hor]
    rw [hupd]
    refine ⟨?_, fun _ => rfl, fun h => h⟩
    constructor
    · intro hflip
      exact absurd hflip.1 (by simp)
    · intro hcon
      exact absurd (by simpa using hcon.1) hor

/-- Claim C6 as frozen is false at the boundary: a flashing sign last toggled
at time 0 and updated at time 500 has had at least 500 ms elapse, yet the
update returns it unchanged (the code requires strictly more than 500 ms), so
the sequence flag is not flipped. -/
theorem claim_C6_counterexample :
    signC6.flashing = true ∧
    (500 : ℤ) - signC6.timestampOfPreviousFlash ≥ 500 ∧
    signC6.update [] 500 = signC6 := by
  refine ⟨rfl, by norm_num [signC6], ?_⟩
  norm_num [CrosswalkSign.update, CrosswalkSign.playerInCrosswalk, findPlayer,
    signC6, flashIntervalInMilliseconds]

/-- Witness for claim C6's amended theorem: at time 501 the flashing sign
flips its sequence, restamps, and stays flashing. -/
theorem claim_C6_witness :
    (signC6w.update [] 501).flashingSequence = !signC6w.flashingSequence ∧
    (signC6w.update [] 501).timestampOfPreviousFlash = 501 ∧
    (signC6w.update [] 501).flashing = true :=
  (claim_C6_amended signC6w [] 501).1.mpr ⟨Or.inl rfl, by norm_num [signC6w]⟩

/-- calculateYForPassing for a PASS obstacle flush with its original lane that
is at least as fast as the closest obstacle ahead: the return-to-lane branch
can only fire vacuously, leaving the two-width proximity test and the 8-unit
nudge. -/
lemma calcY_flush (o : Obstacle) (p : Player) (others : List Obstacle) (c : Obstacle)
    (hPass : o.avoidance = ObstacleAvoidanceType.PASS)
    (hy : o.y = o.originalY)
    (hc : o.getClosestObstacle others = some c)
    (hsp : ¬ o.speed < c.speed) :
    o.calculateYForPassing p others =
      if 2 * o.width < qabs (o.x - c.x) then o.y
      else if 0 < o.height then o.y + 8 * passDir o.direction else o.y := by
  have h0 : qabs (o.originalY - o.y) = 0 := by rw [hy]; simp [qabs]
  simp only [Obstacle.calculateYForPassing, hPass, ne_eq, not_true_eq_false,
    if_false, hc, if_neg hsp, h0]
  by_cases hh : o.height < (0 : ℚ)
  · have hnpos : ¬ (0 : ℚ) < o.height := by linarith
    rw [if_pos hh]
    split
    · rename_i yv heq
      split at heq
      · split at heq
        · simp only [Option.some.injEq] at heq
          simp [← heq, hy, hnpos]
        · split at heq
          · simp only [Option.some.injEq] at heq
            simp [← heq, hy, hnpos]
          · exact absurd heq (by simp)
      · exact absurd heq (by simp)
    · simp [hnpos]
  · rw [if_neg hh]

/-- Claim C3 (amended): for every obstacle with avoidance PASS that currently
sits at its original lane y and has a closest obstacle strictly ahead of it:
if that obstacle is farther than two obstacle-widths away, moveObstacle
leaves y unchanged; and if it is within two obstacle-widths while this
obstacle does not crash this tick, is at least as fast as that closest
obstacle, and has positive height, one tick shifts y by exactly 8 units
toward the passing side (decreasing y for RIGHT-direction obstacles,
increasing y for LEFT-direction ones). -/
theorem claim_C3_amended (o : Obstacle) (p : Player) (others : List Obstacle)
    (c : Obstacle)
    (hPass : o.avoidance = ObstacleAvoidanceType.PASS)
    (hy : o.y = o.originalY)
    (hc : o.getClosestObstacle others = some c) :
    (2 * o.width < qabs (o.x - c.x) → (o.moveObstacle p others).y = o.y) ∧
    (qabs (o.x - c.x) ≤ 2 * o.width →
      (o.detectCollisions && o.collisionDetected others) = false →
      c.speed ≤ o.speed → 0 < o.height →
      (o.moveObstacle p others).y = o.y + 8 * passDir o.direction) := by
  constructor
  · intro hfar
    by_cases hcol : (o.detectCollisions && o.collisionDetected others) = true
    · simp [Obstacle.moveObstacle, hcol]
    · have hcol' : (o.detectCollisions && o.collisionDetected others) = false := by
        simpa using hcol
      simp only [Obstacle.moveObstacle, hcol', Bool.false_eq_true, if_false]
      by_cases hsp : o.speed < c.speed
      · simp [Obstacle.calculateYForPassing, hPass, hc, hsp, hy]
      · rw [calcY_flush o p others c hPass hy hc hsp, if_pos hfar]
  · intro hnear hnc hspeed hh
    simp only [Obstacle.moveObstacle, hnc, Bool.false_eq_true, if_false]
    rw [calcY_flush o p others c hPass hy hc (not_lt.mpr hspeed),
      if_neg (not_lt.mpr hnear), if_pos hh]

/-- Claim C3 as frozen is false: a PASS obstacle displaced from its original
lane whose closest obstacle ahead is faster and farther than two widths away
snaps back to its original y instead of leaving y unchanged. -/
theorem claim_C3_counterexample :
    obstacleC3.avoidance = ObstacleAvoidanceType.PASS ∧
    obstacleC3.getClosestObstacle [fasterC3] = some fasterC3 ∧
    2 * obstacleC3.width < qabs (obstacleC3.x - fasterC3.x) ∧
    (obstacleC3.moveObstacle playerC3 [fasterC3]).y ≠ obstacleC3.y := by
  refine ⟨rfl, ?_, ?_, ?_⟩
  · norm_num [Obstacle.getClosestObstacle, closestStepObs, Obstacle.aheadInLane,
      qabs, obstacleC3, fasterC3]
  · norm_num [qabs, obstacleC3, fasterC3]
  · norm_num [Obstacle.moveObstacle, Obstacle.collisionDetected,
      Obstacle.calculateSpeed, Obstacle.calculateYForPassing,
      Obstacle.getClosestObstacle, closestStepObs, Obstacle.aheadInLane,
      qabs, obstacleC3, fasterC3, playerC3]

/-- Witness for claim C3's amended theorem: the flush PASS obstacle with a
slower obstacle 15 units ahead (widths 10) nudges its y by exactly -8. -/
theorem claim_C3_witness :
    (obstacleC3w.moveObstacle playerC3w [slowC3w]).y =
      obstacleC3w.y + 8 * passDir obstacleC3w.direction := by
  have h := claim_C3_amended obstacleC3w playerC3w [slowC3w] slowC3w rfl rfl
    (by norm_num [Obstacle.getClosestObstacle, closestStepObs, Obstacle.aheadInLane,
      qabs, obstacleC3w, slowC3w])
  exact h.2 (by norm_num [qabs, obstacleC3w, slowC3w]) rfl
    (by norm_num [obstacleC3w, slowC3w]) (by norm_num [obstacleC3w])

lemma qmax_le {a b c : ℚ} (h1 : a ≤ c) (h2 : b ≤ c) : qmax a b ≤ c := by
  unfold qmax
  split <;> assumption

lemma le_qmax_right (a b : ℚ) : b ≤ qmax a b := by
  unfold qmax
  by_cases h : a < b
  · simp [h]
  · simp [h]
    exact not_lt.mp h

lemma quarterGrid_qmax_zero {a : ℚ} (h : quarterGrid a) : quarterGrid (qmax a 0) := by
  unfold qmax
  split
  · exact quarterGrid_zero
  · exact h

/-- Bounds for the third delta step of calculateSpeed followed by the clamp,
for an arbitrary running speed s2 produced by the first two steps. -/
lemma brakeStep3_bounds (s2 orig speed : ℚ) (close emerg : Bool)
    (h2s : s2 ≤ speed) (hg2 : quarterGrid s2) (hgo : quarterGrid orig)
    (hs0 : 0 ≤ speed) (hso : speed ≤ orig) :
    0 ≤ qmax (if (close || emerg) = true then s2 - 1
        else if orig ≠ 0 ∧ s2 < orig then s2 + 1/4 else s2) 0 ∧
    qmax (if (close || emerg) = true then s2 - 1
        else if orig ≠ 0 ∧ s2 < orig then s2 + 1/4 else s2) 0 ≤ orig ∧
    quarterGrid (qmax (if (close || emerg) = true then s2 - 1
        else if orig ≠ 0 ∧ s2 < orig then s2 + 1/4 else s2) 0) ∧
    qmax (if (close || emerg) = true then s2 - 1
        else if orig ≠ 0 ∧ s2 < orig then s2 + 1/4 else s2) 0 ≤ speed + 1/4 ∧
    (close = true →
      qmax (if (close || emerg) = true then s2 - 1
        else if orig ≠ 0 ∧ s2 < orig then s2 + 1/4 else s2) 0 ≤ speed) := by
  by_cases hc : (close || emerg) = true
  · rw [if_pos hc]
    exact ⟨le_qmax_right _ _, qmax_le (by linarith) (by linarith),
      quarterGrid_qmax_zero (quarterGrid_sub_one hg2),
      qmax_le (by linarith) (by linarith),
      fun _ => qmax_le (by linarith) (by linarith)⟩
  · rw [if_neg hc]
    obtain ⟨hcl, _⟩ : close = false ∧ emerg = false := by simpa using hc
    by_cases ha : orig ≠ 0 ∧ s2 < orig
    · rw [if_pos ha]
      have hle : s2 + 1/4 ≤ orig := quarterGrid_add_quarter_le hg2 hgo ha.2
      exact ⟨le_qmax_right _ _, qmax_le hle (by linarith),
        quarterGrid_qmax_zero (quarterGrid_add_quarter hg2),
        qmax_le (by linarith) (by linarith),
        fun hct => by simp [hcl] at hct⟩
    · rw [if_neg ha]
      exact ⟨le_qmax_right _ _, qmax_le (by linarith) (by linarith),
        quarterGrid_qmax_zero hg2,
        qmax_le (by linarith) (by linarith),
        fun _ => qmax_le h2s hs0⟩

/-- The BRAKE branch of calculateSpeed keeps the speed nonnegative, at most
the original speed, on the quarter grid, gains at most a quarter per tick,
and does not increase when the closest hazard is nearer than 100. -/
lemma calculateSpeed_brake (o : Obstacle) (p : Player) (others : List Obstacle)
    (hB : o.avoidance = ObstacleAvoidanceType.BRAKE)
    (hs0 : 0 ≤ o.speed) (hso : o.speed ≤ o.originalSpeed)
    (hgs : quarterGrid o.speed) (hgo : quarterGrid o.originalSpeed) :
    0 ≤ o.calculateSpeed p others ∧
    o.calculateSpeed p others ≤ o.originalSpeed ∧
    quarterGrid (o.calculateSpeed p others) ∧
    o.calculateSpeed p others ≤ o.speed + 1/4 ∧
    (optLt (o.calculateDistanceToClosestObject (brakeHazards p others)) 100 = true →
      o.calculateSpeed p others ≤ o.speed) := by
  have hcs : o.calculateSpeed p others =
      qmax
        (if (optLt (o.calculateDistanceToClosestObject (brakeHazards p others)) 100 ||
            o.emergencyVehicleDetected others) = true then
          (if optLt (o.calculateDistanceToClosestObject (brakeHazards p others)) 200 then
            (if ttcBrakingPressure (o.calculateTimeToCollision (brakeHazards p others)) then
              o.speed - 1/2 else o.speed) - 1/2
          else
            (if ttcBrakingPressure (o.calculateTimeToCollision (brakeHazards p others)) then
              o.speed - 1/2 else o.speed)) - 1
        else if o.originalSpeed ≠ 0 ∧
            (if optLt (o.calculateDistanceToClosestObject (brakeHazards p others)) 200 then
              (if ttcBrakingPressure (o.calculateTimeToCollision (brakeHazards p others)) then
                o.speed - 1/2 else o.speed) - 1/2
            else
              (if ttcBrakingPressure (o.calculateTimeToCollision (brakeHazards p others)) then
                o.speed - 1/2 else o.speed)) < o.originalSpeed then
          (if optLt (o.calculateDistanceToClosestObject (brakeHazards p others)) 200 then
            (if ttcBrakingPressure (o.calculateTimeToCollision (brakeHazards p others)) then
              o.speed - 1/2 else o.speed) - 1/2
          else
            (if ttcBrakingPressure (o.calculateTimeToCollision (brakeHazards p others)) then
              o.speed - 1/2 else o.speed)) + 1/4
        else
          (if optLt (o.calculateDistanceToClosestObject (brakeHazards p others)) 200 then
            (if ttcBrakingPressure (o.calculateTimeToCollision (brakeHazards p others)) then
              o.speed - 1/2 else o.speed) - 1/2
          else
            (if ttcBrakingPressure (o.calculateTimeToCollision (brakeHazards p others)) then
              o.speed - 1/2 else o.speed)))
        0 := by
    simp [Obstacle.calculateSpeed, hB]
  rw [hcs]
  refine brakeStep3_bounds _ _ o.speed _ _ ?_ ?_ hgo hs0 hso
  · split_ifs <;> linarith
  · split_ifs
    · exact quarterGrid_sub_half (quarterGrid_sub_half hgs)
    · exact quarterGrid_sub_half hgs
    · exact quarterGrid_sub_half hgs
    · exact hgs

/-- Claim C2: for a BRAKE obstacle in the trajectory invariant (nonnegative
quarter-grid speed at most the quarter-grid original speed), one moveObstacle
tick does not increase the speed while some hazard ahead is within 100 units;
the speed gains at most 0.25 per tick and never exceeds the original speed
(in particular when no hazard is within 200 units); and the invariant is
preserved, so the bounds hold across successive ticks. -/
theorem claim_C2 (o : Obstacle) (p : Player) (others : List Obstacle)
    (hB : o.avoidance = ObstacleAvoidanceType.BRAKE)
    (hInv : brakeInv o) :
    (hazardWithin o p others 100 → (o.moveObstacle p others).speed ≤ o.speed) ∧
    (noHazardWithin o p others 200 →
      (o.moveObstacle p others).speed ≤ o.speed + 1/4 ∧
      (o.moveObstacle p others).speed ≤ o.originalSpeed) ∧
    brakeInv (o.moveObstacle p others) := by
  obtain ⟨hs0, hso, hgs, hgo⟩ := hInv
  by_cases hcol : (o.detectCollisions && o.collisionDetected others) = true
  · have hsp : (o.moveObstacle p others).speed = 0 := by
      simp [Obstacle.moveObstacle, hcol]
    have hos : (o.moveObstacle p others).originalSpeed = o.originalSpeed := by
      simp [Obstacle.moveObstacle, hcol]
    refine ⟨fun _ => by rw [hsp]; linarith,
      fun _ => ⟨by rw [hsp]; linarith, by rw [hsp]; linarith⟩, ?_⟩
    refine ⟨by rw [hsp], ?_, ?_, ?_⟩
    · rw [hsp, hos]; linarith
    · rw [hsp]; exact quarterGrid_zero
    · rw [hos]; exact hgo
  · have hcol' : (o.detectCollisions && o.collisionDetected others) = false := by
      simpa using hcol
    have hsp : (o.moveObstacle p others).speed = o.calculateSpeed p others := by
      simp [Obstacle.moveObstacle, hcol']
    have hos : (o.moveObstacle p others).originalSpeed = o.originalSpeed := by
      simp [Obstacle.moveObstacle, hcol']
    obtain ⟨hb0, hbo, hbg, hbq, hb100⟩ := calculateSpeed_brake o p others hB hs0 hso hgs hgo
    refine ⟨?_, ?_, ?_⟩
    · intro hw
      rw [hsp]
      exact hb100 (distanceToClosest_lt o (brakeHazards p others) 100 hw)
    · intro _
      exact ⟨by rw [hsp]; exact hbq, by rw [hsp]; exact hbo⟩
    · exact ⟨by rw [hsp]; exact hb0, by rw [hsp, hos]; exact hbo,
        by rw [hsp]; exact hbg, by rw [hos]; exact hgo⟩

/-- Witness for claim C2: the concrete BRAKE obstacle with a stopped hazard 50
units ahead does not speed up. -/
theorem claim_C2_witness :
    (obstacleC2w.moveObstacle playerC2w [hazardC2w]).speed ≤ obstacleC2w.speed := by
  have h := claim_C2 obstacleC2w playerC2w [hazardC2w] rfl
    ⟨by norm_num [obstacleC2w], by norm_num [obstacleC2w],
      ⟨16, by norm_num [obstacleC2w]⟩, ⟨16, by norm_num [obstacleC2w]⟩⟩
  exact h.1 ⟨GObj.obs hazardC2w, by simp [brakeHazards],
    by norm_num [Obstacle.aheadInLane, GObj.x, GObj.y, obstacleC2w, hazardC2w],
    by norm_num [qabs, GObj.x, obstacleC2w, hazardC2w]⟩
